import Mathlib

/-!
Shallow embedding of the package-download web backend
(`src/web/backend/app`): data model (`models/schemas.py`), the two
acquisition pipelines (`services/npm_downloader.py`,
`services/pypi_downloader.py`), the task store
(`services/task_manager.py`) and the trigger/orchestration layer
(`routers/tasks.py`).  External effects (subprocess exit codes and
output streams, the filesystem, wall-clock time) are passed in as
explicit parameters; machine state (the in-memory task cache and the
on-disk task directories) is threaded functionally.  Datetimes are
modelled as natural-number timestamps; Python's
`isoformat`/`fromisoformat` bijection is modelled by rendering the
timestamp in decimal and parsing it back.
-/

namespace PkgDl

/-- `TaskStatus` enumeration (schemas.py). -/
inductive TaskStatus where
  | created
  | parsing
  | parsed
  | downloading
  | packing
  | completed
  | failed
deriving DecidableEq, Repr

/-- `DownloadOptions` (schemas.py): which ecosystems to process, runtime
versions, pip target platforms. -/
structure DownloadOptions where
  npm : Bool := true
  pypi : Bool := true
  node_version : String := "20"
  python_version : String := "3.13"
  platforms : List String := ["win_amd64", "manylinux2014_x86_64"]
deriving DecidableEq, Repr

/-- `DependencyNode` (schemas.py): a node of the npm dependency tree. -/
inductive DependencyNode where
  | mk (name : String) (version : String) (children : List DependencyNode)

/-- Field accessor for `DependencyNode.name`. -/
def DependencyNode.name : DependencyNode → String
  | .mk n _ _ => n

/-- Field accessor for `DependencyNode.version`. -/
def DependencyNode.version : DependencyNode → String
  | .mk _ v _ => v

/-- Field accessor for `DependencyNode.children`. -/
def DependencyNode.children : DependencyNode → List DependencyNode
  | .mk _ _ c => c

/-- `PackageInfo` (schemas.py): one pypi package entry. -/
structure PackageInfo where
  name : String
  version : String
  size : Option Nat := none
deriving DecidableEq, Repr

/-- `DownloadProgress` (schemas.py): per-ecosystem progress counters. -/
structure DownloadProgress where
  total : Nat := 0
  completed : Nat := 0
  failed : Nat := 0
  failed_packages : List String := []
deriving DecidableEq, Repr

/-- `TaskInfo` (schemas.py): the central task aggregate.  `created_at`
and `completed_at` are integer timestamps (see module docstring). -/
structure TaskInfo where
  task_id : String
  status : TaskStatus
  files : List String
  options : DownloadOptions
  npm_dependencies : Option DependencyNode := none
  pypi_dependencies : List PackageInfo := []
  npm_progress : DownloadProgress := {}
  pypi_progress : DownloadProgress := {}
  archive_url : Option String := none
  archive_size : Option Nat := none
  error : Option String := none
  created_at : Nat
  completed_at : Option Nat := none

/-! ### Character classes used by the Python regexes -/

/-- The character class `[a-zA-Z0-9_-]` used by the parsing regexes in
`pypi_downloader.py`. -/
def isNameChar (c : Char) : Bool :=
  ('a'.toNat ≤ c.toNat && c.toNat ≤ 'z'.toNat) ||
  ('A'.toNat ≤ c.toNat && c.toNat ≤ 'Z'.toNat) ||
  ('0'.toNat ≤ c.toNat && c.toNat ≤ '9'.toNat) ||
  c = '_' || c = '-'

/-- The version-operator class `[>=<~!]` of the requirement-line regex. -/
def isOpChar (c : Char) : Bool :=
  c = '>' || c = '=' || c = '<' || c = '~' || c = '!'

/-- ASCII whitespace recognised by Python's `str.strip` and `\s`. -/
def isPySpace (c : Char) : Bool :=
  c = ' ' || c = '\t' || c = '\n' || c = '\r' ||
  c.toNat = 11 || c.toNat = 12

/-- Python `str.strip()` on a list of characters. -/
def pyStrip (s : List Char) : List Char :=
  ((s.dropWhile isPySpace).reverse.dropWhile isPySpace).reverse

/-- Python `s.startswith(pre)`. -/
def pyStartsWith (s pre : String) : Bool :=
  pre.toList.isPrefixOf s.toList

/-! ### PyPIDownloader.parse_dependencies (pypi_downloader.py 71-94)

One requirements line is matched against
`^([a-zA-Z0-9_-]+)([>=<~!]+)?(.+)?$`.  All three classes are mutually
disjoint and every group is greedy, so the regex (when it matches)
takes the longest name-character prefix as group 1, the longest
operator-character run after it as group 2, and the remainder as
group 3; the version is group 3 when non-empty and `"latest"`
otherwise. -/

/-- Process one line of a requirements file exactly as the loop body in
`PyPIDownloader.parse_dependencies` does: strip, skip empty and `#`
lines, then apply the version-extraction regex. -/
def parseReqLine (raw : List Char) : Option PackageInfo :=
  let line := pyStrip raw
  if line.isEmpty then none
  else if line.head? = some '#' then none
  else
    let name := line.takeWhile isNameChar
    if name.isEmpty then none
    else
      let rest := (line.dropWhile isNameChar).dropWhile isOpChar
      let version := if rest.isEmpty then "latest" else String.mk rest
      some { name := String.mk name, version := version }

namespace PyPIDownloader

/-- `PyPIDownloader.parse_dependencies`: the manifest directory is
represented by the list of `requirements*.txt` files it contains, each
file being its list of lines.  Returns `[]` when no requirements file
exists (manifest absent). -/
def parse_dependencies (reqFiles : List (List (List Char))) : List PackageInfo :=
  if reqFiles.isEmpty then []
  else reqFiles.flatMap (fun lines => lines.filterMap parseReqLine)

end PyPIDownloader

/-! ### PyPIDownloader.download_packages (pypi_downloader.py 104-239)

The external `pip download` subprocess is modelled by a `PipRun`
record per `(platform, requirements-file)` invocation: the decoded
stdout lines, the exit code and the decoded stderr.  The stdout lines
drive the progress parsing exactly as the Python loop does. -/

/-- Result of one `pip download` subprocess invocation. -/
structure PipRun where
  stdoutLines : List (List Char)
  returncode : Nat
  stderr : List Char
deriving Repr

/-- Is `pat` a contiguous substring of `s` (Python `pat in s`)? -/
def containsSub (s pat : List Char) : Bool :=
  match s with
  | [] => pat.isEmpty
  | _ :: t => pat.isPrefixOf s || containsSub t pat

/-- At one scan position, try to match the alternation
`(Collecting|Downloading)` as a literal prefix and return the rest of
the line.  The two alternatives start with distinct letters, so no
backtracking between them is possible. -/
def matchKeyAt (s : List Char) : Option (List Char) :=
  if ("Collecting".toList).isPrefixOf s then some (s.drop 10)
  else if ("Downloading".toList).isPrefixOf s then some (s.drop 11)
  else none

/-- After the keyword, match `\s+([a-zA-Z0-9_-]+)` and return the
captured name.  The whitespace and name classes are disjoint, so the
greedy runs need no backtracking. -/
def matchNameTail (rest : List Char) : Option String :=
  if (rest.takeWhile isPySpace).isEmpty then none
  else
    let name := (rest.dropWhile isPySpace).takeWhile isNameChar
    if name.isEmpty then none else some (String.mk name)

/-- `re.search(r"(Collecting|Downloading)\s+([a-zA-Z0-9_-]+)", s)`,
returning the captured package name of the leftmost match. -/
def searchCollecting (s : List Char) : Option String :=
  match s with
  | [] => none
  | _ :: t =>
    match matchKeyAt s with
    | some rest =>
      match matchNameTail rest with
      | some name => some name
      | none => searchCollecting t
    | none => searchCollecting t

/-- Lazy `.*?([a-zA-Z0-9_-]+)` after the literal: find the first
name character reachable without crossing a newline (`.` does not
match `\n`) and capture the maximal name run from there; also return
the remainder after the match for `findall` to continue from. -/
def findNameRun (rest : List Char) : Option (String × List Char) :=
  match rest with
  | [] => none
  | c :: t =>
    if isNameChar c then
      some (String.mk (rest.takeWhile isNameChar), rest.dropWhile isNameChar)
    else if c = '\n' then none
    else findNameRun t

/-- Fuel-driven scan implementing
`re.findall(r"Could not find.*?([a-zA-Z0-9_-]+)", s)`: at each
position try the literal `Could not find` followed by the lazy tail;
on a match record the captured group and continue after the match.
Each step consumes at least one character, so `s.length` fuel
suffices. -/
def findallCouldNotFindAux : Nat → List Char → List String
  | 0, _ => []
  | _ + 1, [] => []
  | fuel + 1, s@(_ :: t) =>
    if ("Could not find".toList).isPrefixOf s then
      match findNameRun (s.drop 14) with
      | some (name, rest) => name :: findallCouldNotFindAux fuel rest
      | none => findallCouldNotFindAux fuel t
    else findallCouldNotFindAux fuel t

/-- `re.findall(r"Could not find.*?([a-zA-Z0-9_-]+)", errorMsg)`. -/
def findallCouldNotFind (s : List Char) : List String :=
  findallCouldNotFindAux s.length s

/-- Processing of one stdout line of `pip download`
(pypi_downloader.py 183-211): the state is the `current_package`
tracker together with the progress record. -/
def pipLineStep (st : Option String × DownloadProgress) (line : List Char) :
    Option String × DownloadProgress :=
  let lineStr := pyStrip line
  if lineStr.isEmpty then st
  else
    let cur :=
      if containsSub lineStr ("Collecting".toList) ||
         containsSub lineStr ("Downloading".toList) then
        match searchCollecting lineStr with
        | some name => some name
        | none => st.1
      else st.1
    let p :=
      if containsSub lineStr ("Successfully downloaded".toList) ||
         containsSub lineStr ("Saved".toList) then
        match cur with
        | some _ => { st.2 with completed := st.2.completed + 1 }
        | none => st.2
      else st.2
    (cur, p)

/-- One `pip download` run (pypi_downloader.py 164-225): stream the
stdout lines, then on a non-zero exit code extract failed package
names from stderr, appending each name not already recorded. -/
def pipRunProcess (p : DownloadProgress) (run : PipRun) : DownloadProgress :=
  let p := (run.stdoutLines.foldl pipLineStep (none, p)).2
  if run.returncode ≠ 0 then
    (findallCouldNotFind run.stderr).foldl
      (fun p pkg =>
        if pkg ∈ p.failed_packages then p
        else { p with failed_packages := p.failed_packages ++ [pkg],
                      failed := p.failed + 1 }) p
  else p

/-- Count of requirement lines contributing to `progress.total`
(pypi_downloader.py 135-143): non-empty lines not starting with `#`. -/
def countReqLines (reqFiles : List (List (List Char))) : Nat :=
  reqFiles.foldl
    (fun n lines =>
      n + lines.countP (fun raw =>
        let l := pyStrip raw
        !l.isEmpty && !(l.head? = some '#'))) 0

/-- `PyPIDownloader.download_packages`: returns `progress` unchanged
when no requirements file exists; otherwise sets `progress.total` to
the requirement-line count, then for each platform and each
requirements file processes the corresponding `pip download` run
(`pipRun platform fileIndex`). -/
def PyPIDownloader.download_packages (reqFiles : List (List (List Char)))
    (platforms : List String) (pipRun : String → Nat → PipRun)
    (progress : DownloadProgress) : DownloadProgress :=
  if reqFiles.isEmpty then progress
  else
    let p0 := { progress with total := countReqLines reqFiles }
    platforms.foldl
      (fun p platform =>
        (List.range reqFiles.length).foldl
          (fun p i => pipRunProcess p (pipRun platform i)) p) p0

/-! ### NPMDownloader (npm_downloader.py)

The `npm list --all --json` output consumed by
`_build_dependency_tree` is a JSON dictionary; we model exactly the
shape the code reads: optional `name` and `version` string entries and
an optional `dependencies` sub-dictionary whose values may or may not
themselves be dictionaries (`isinstance(dep_data, dict)`).  A Python
dictionary with none of the three keys is falsy (`if not npm_data`). -/

/-- JSON value as read by `_build_dependency_tree`. -/
inductive NpmJson where
  | dict (name : Option String) (version : Option String)
         (deps : Option (List (String × NpmJson)))
  | other

mutual

/-- `NPMDownloader._build_dependency_tree` (npm_downloader.py 125-153). -/
def build_dependency_tree : NpmJson → Option DependencyNode
  | .other => none
  | .dict name version deps =>
    if name.isNone && version.isNone && deps.isNone then none
    else
      some (.mk (name.getD "root") (version.getD "0.0.0")
        (buildChildren (deps.getD [])))

/-- The loop over `dependencies.items()` building child nodes:
non-dict values are skipped; a child's own children come from its
`dependencies` key when present (the recursive call in the source is
on an always-truthy constructed dict, so it always yields a node,
whose children are exactly those of the child's `dependencies`). -/
def buildChildren : List (String × NpmJson) → List DependencyNode
  | [] => []
  | (_, .other) :: rest => buildChildren rest
  | (depName, .dict _ dv dd) :: rest =>
    let grandchildren :=
      match dd with
      | some l => buildChildren l
      | none => []
    .mk depName (dv.getD "unknown") grandchildren :: buildChildren rest

end

/-- External-world outcome of the subprocess calls made by
`NPMDownloader.parse_dependencies`: whether `package-lock.json`
already exists, the exit code and stderr of the `npm install
--package-lock-only` call, and the decoded stdout of
`npm list --all --json` (none when empty). -/
structure NpmParseEnv where
  lockExists : Bool
  genLockCode : Nat
  genLockStderr : String
  listStdout : Option NpmJson

/-- `NPMDownloader.parse_dependencies` (npm_downloader.py 50-123):
returns `none` when `package.json` is absent; raises when lock-file
generation fails; otherwise builds the tree from the `npm list`
output (or returns `none` for empty output). -/
def NPMDownloader.parse_dependencies (hasPackageJson : Bool)
    (env : NpmParseEnv) : Except String (Option DependencyNode) :=
  if !hasPackageJson then .ok none
  else if !env.lockExists && env.genLockCode ≠ 0 then
    .error ("Failed to generate package-lock.json: " ++ env.genLockStderr)
  else
    match env.listStdout with
    | some data => .ok (build_dependency_tree data)
    | none => .ok none

/-- Per-package body of the pack loop in
`NPMDownloader.download_packages` (npm_downloader.py 239-274): skip
scoped-namespace directories, otherwise run `npm pack` (its outcome —
exit code 0 versus non-zero exit or a raised exception — is
abstracted by `packOk`) and update the counters; the second component
accumulates the directories actually passed to `npm pack`. -/
def npmPackStep (packOk : String → Bool)
    (acc : DownloadProgress × List String) (name : String) :
    DownloadProgress × List String :=
  if pyStartsWith name "@" then acc
  else if packOk name then
    ({ acc.1 with completed := acc.1.completed + 1 }, acc.2 ++ [name])
  else
    ({ acc.1 with failed := acc.1.failed + 1,
                  failed_packages := acc.1.failed_packages ++ [name] },
     acc.2 ++ [name])

/-- `NPMDownloader.download_packages` (npm_downloader.py 155-284):
returns `(progress, packed)` where `packed` lists the package
directories handed to `npm pack`.  `nodeModules` is the list of
first-level directories of `temp-npm-install/node_modules` (or `none`
when that directory does not exist), `installCode` the exit code of
`npm install --production`. -/
def NPMDownloader.download_packages (hasPackageJson : Bool)
    (installCode : Nat) (installStderr : String)
    (nodeModules : Option (List String)) (packOk : String → Bool)
    (progress : DownloadProgress) :
    Except String (DownloadProgress × List String) :=
  if !hasPackageJson then .ok (progress, [])
  else if installCode ≠ 0 then
    .error ("Failed to install NPM packages: " ++ installStderr)
  else
    match nodeModules with
    | none => .ok (progress, [])
    | some packages =>
      .ok (packages.foldl (npmPackStep packOk)
        ({ progress with total := packages.length }, []))

/-! ### Trigger layer (routers/tasks.py)

Each trigger route checks the task status and schedules a background
coroutine.  The background bodies are embedded as functions of the
task record and of the pipeline outcomes (each pipeline call either
returns a value or raises, exactly the `Except` results the pipeline
embeddings above produce).  Besides the final record, each body also
returns the list of statuses successively committed through
`task_manager.update_task`, in order. -/

/-- Outcomes of the awaited pipeline/packager calls inside
`download_packages_background`: the npm and pypi `download_packages`
results and the `packager.create_archive` result (archive size on
success), plus the `datetime.now()` read at the completion update. -/
structure DownloadBgEnv where
  npmResult : Except String DownloadProgress
  pypiResult : Except String DownloadProgress
  archiveResult : Except String Nat
  now : Nat

/-- Outcomes of the pipeline calls inside
`parse_dependencies_background`. -/
structure ParseBgEnv where
  npmResult : Except String (Option DependencyNode)
  pypiResult : Except String (List PackageInfo)

/-- The `except` handler of both background bodies
(routers/tasks.py 185-191 and 259-265): status := failed, error :=
message; nothing else is touched. -/
def failUpdate (t : TaskInfo) (msg : String) : TaskInfo :=
  { t with status := .failed, error := some msg }

/-- `parse_dependencies_background` (routers/tasks.py 147-191) on a
present task: commit parsing, run the enabled pipelines' resolve
steps, commit their results, commit parsed; on a raised error commit
failed with the error message. -/
def parse_dependencies_background (env : ParseBgEnv) (task : TaskInfo) :
    TaskInfo × List TaskStatus :=
  let t1 := { task with status := TaskStatus.parsing }
  match (if task.options.npm then env.npmResult else .ok t1.npm_dependencies) with
  | .error e => (failUpdate t1 e, [.parsing, .failed])
  | .ok tree =>
    let t2 := { t1 with npm_dependencies := tree }
    match (if task.options.pypi then env.pypiResult else .ok t2.pypi_dependencies) with
    | .error e => (failUpdate t2 e, [.parsing, .failed])
    | .ok pkgs =>
      let t3 := { t2 with pypi_dependencies := pkgs,
                          status := TaskStatus.parsed }
      (t3, [.parsing, .parsed])

/-- `download_packages_background` (routers/tasks.py 194-265) on a
present task: commit downloading, run the enabled pipelines' download
steps, commit packing, archive, then commit completed with archive
url/size and `completed_at`; on a raised error commit failed. -/
def download_packages_background (env : DownloadBgEnv) (task : TaskInfo) :
    TaskInfo × List TaskStatus :=
  let t1 := { task with status := TaskStatus.downloading }
  match (if task.options.npm then env.npmResult else .ok t1.npm_progress) with
  | .error e => (failUpdate t1 e, [.downloading, .failed])
  | .ok np =>
    let t2 := { t1 with npm_progress := np }
    match (if task.options.pypi then env.pypiResult else .ok t2.pypi_progress) with
    | .error e => (failUpdate t2 e, [.downloading, .failed])
    | .ok pp =>
      let t3 := { t2 with pypi_progress := pp, status := TaskStatus.packing }
      match env.archiveResult with
      | .error e => (failUpdate t3 e, [.downloading, .packing, .failed])
      | .ok size =>
        let t4 := { t3 with
          status := TaskStatus.completed
          archive_url := some ("/api/tasks/" ++ task.task_id ++ "/archive")
          archive_size := some size
          completed_at := some env.now }
        (t4, [.downloading, .packing, .completed])

/-- HTTP-level rejections raised by the task routes. -/
inductive ApiError where
  | notFound
  | badRequest (detail : String)

/-- The in-memory task store `task_manager.tasks`, keyed by task id. -/
abbrev TaskStore := List (String × TaskInfo)

/-- Dictionary lookup in the store. -/
def TaskStore.find? (st : TaskStore) (id : String) : Option TaskInfo :=
  (st.lookup id)

/-- Replace the record stored under `id`. -/
def TaskStore.set (st : TaskStore) (id : String) (t : TaskInfo) : TaskStore :=
  st.map (fun p => if p.1 = id then (id, t) else p)

/-- `POST /api/tasks/\x7btask_id\x7d/parse` (routers/tasks.py 77-93)
followed by the scheduled background body: 404 when the task is
missing, 400 (and no background work) unless the status is `created`. -/
def parse_task_route (env : ParseBgEnv) (st : TaskStore) (id : String) :
    Except ApiError Unit × TaskStore :=
  match st.find? id with
  | none => (.error .notFound, st)
  | some t =>
    if t.status ≠ .created then
      (.error (.badRequest "cannot parse"), st)
    else
      (.ok (), st.set id (parse_dependencies_background env t).1)

/-- `POST /api/tasks/\x7btask_id\x7d/download` (routers/tasks.py
96-112) followed by the scheduled background body: 404 when the task
is missing, 400 (and no background work) unless the status is
`created` or `parsed`. -/
def start_download_route (env : DownloadBgEnv) (st : TaskStore) (id : String) :
    Except ApiError Unit × TaskStore :=
  match st.find? id with
  | none => (.error .notFound, st)
  | some t =>
    if t.status ≠ .created && t.status ≠ .parsed then
      (.error (.badRequest "cannot download"), st)
    else
      (.ok (), st.set id (download_packages_background env t).1)

/-- The edges of the task lifecycle state machine (§4.3 of the spec):
the linear chain created → parsing → parsed → downloading → packing →
completed, the shortcut created → downloading (download is legal from
`created`), and failed from any non-terminal state. -/
def LegalEdge (a b : TaskStatus) : Bool :=
  match a, b with
  | .created, .parsing => true
  | .parsing, .parsed => true
  | .parsed, .downloading => true
  | .created, .downloading => true
  | .downloading, .packing => true
  | .packing, .completed => true
  | .created, .failed => true
  | .parsing, .failed => true
  | .parsed, .failed => true
  | .downloading, .failed => true
  | .packing, .failed => true
  | _, _ => false

/-! ### TaskManager (services/task_manager.py) -/

/-- Python list slicing `l[a:b]` (negative indices count from the
end; both bounds are clamped to `[0, len(l)]`). -/
def pySlice {α : Type} (l : List α) (a b : Int) : List α :=
  let n : Int := l.length
  let adj := fun (i : Int) => (max 0 (min n (if i < 0 then i + n else i))).toNat
  (l.take (adj b)).drop (adj a)

/-- Stable insertion of a task into a list already sorted by
`created_at` descending: the new element goes before the first
strictly older task, so equal timestamps keep their original order —
the behaviour of Python's stable `list.sort(key=..., reverse=True)`. -/
def insertByCreatedDesc (x : TaskInfo) : List TaskInfo → List TaskInfo
  | [] => [x]
  | y :: ys =>
    if y.created_at < x.created_at then x :: y :: ys
    else y :: insertByCreatedDesc x ys

/-- `all_tasks.sort(key=lambda t: t.created_at, reverse=True)`. -/
def sortByCreatedDesc (l : List TaskInfo) : List TaskInfo :=
  l.foldr insertByCreatedDesc []

/-- `TaskManager.list_tasks` (task_manager.py 67-75): sort all cached
tasks by `created_at` descending and return the 1-indexed page
`all_tasks[(page-1)*size : (page-1)*size + size]` together with the
total task count. -/
def TaskManager.list_tasks (tasks : List TaskInfo) (page size : Int) :
    List TaskInfo × Nat :=
  let all := sortByCreatedDesc tasks
  let start := (page - 1) * size
  (pySlice all start (start + size), tasks.length)

/-- The persisted `task_info.json` of one task directory as
`cleanup_expired_tasks` sees it: missing, unparseable (any exception
while reading/decoding it), or valid with its `task_id` and
`created_at` fields. -/
inductive MetaFile where
  | absent
  | corrupt
  | valid (task_id : String) (created_at : Nat)
deriving DecidableEq, Repr

/-- One entry of the root task-storage directory. -/
structure DirEntry where
  name : String
  isDir : Bool
  metaFile : MetaFile
deriving DecidableEq, Repr

/-- A directory entry that `cleanup_expired_tasks` will delete: a
directory whose metadata is readable and whose `created_at` precedes
the expiry time. -/
def expiredEntry (expiryTime : Nat) (e : DirEntry) : Bool :=
  e.isDir &&
    match e.metaFile with
    | .valid _ created => created < expiryTime
    | _ => false

/-- The persisted `task_id` of an entry's metadata names the entry's
own directory — true of every file `_save_task_info` writes. -/
def metaIdMatches (e : DirEntry) : Bool :=
  match e.metaFile with
  | .valid id _ => id == e.name
  | _ => true

/-- TaskManager state: the entries of the root task-storage directory
and the in-memory task cache. -/
structure TMState where
  entries : List DirEntry
  tasks : TaskStore

/-- `TaskManager.delete_task` (task_manager.py 77-87): remove the
task's directory when it exists, remove the in-memory record when
present, and return `True` unconditionally. -/
def TaskManager.delete_task (st : TMState) (id : String) : Bool × TMState :=
  (true,
   { entries := st.entries.filter (fun e => e.name ≠ id),
     tasks := st.tasks.filter (fun p => p.1 ≠ id) })

/-- Body of the `cleanup_expired_tasks` loop for one directory entry:
skip non-directories, skip entries without `task_info.json`, skip
entries whose metadata raises while being read (the `except` branch
logs and continues), and delete the task named by the metadata when
its `created_at` precedes the expiry time. -/
def cleanupStep (expiryTime : Nat) (st : TMState) (e : DirEntry) : TMState :=
  if !e.isDir then st
  else
    match e.metaFile with
    | .absent => st
    | .corrupt => st
    | .valid id created =>
      if created < expiryTime then (TaskManager.delete_task st id).2 else st

/-- `TaskManager.cleanup_expired_tasks` (task_manager.py 89-111):
sweep the snapshot of root-directory entries with `cleanupStep`.
`expiryTime` is the precomputed `now - timedelta(hours=TASK_EXPIRE_HOURS)`. -/
def TaskManager.cleanup_expired_tasks (expiryTime : Nat) (st : TMState) : TMState :=
  st.entries.foldl (cleanupStep expiryTime) st

/-! ### Persistence (task_manager.py 133-160, pydantic serialisation)

`_save_task_info` writes `json.dump(task.model_dump(mode="json"))`;
`_load_task_info` reads the document and re-validates it with
`TaskInfo(**data)`.  The JSON document is modelled by `Json` below;
pydantic's `mode="json"` turns enums into their string values and
datetimes into ISO strings (modelled as the decimal rendering of the
integer timestamp, which `fromisoformat` inverts). -/

/-- JSON documents as produced by `model_dump(mode="json")`. -/
inductive Json where
  | null
  | str (s : String)
  | num (n : Nat)
  | bool (b : Bool)
  | arr (xs : List Json)
  | obj (fields : List (String × Json))

/-- Decimal digit character. -/
def digitChar (d : Nat) : Char :=
  match d with
  | 0 => '0' | 1 => '1' | 2 => '2' | 3 => '3' | 4 => '4'
  | 5 => '5' | 6 => '6' | 7 => '7' | 8 => '8' | _ => '9'

/-- Decimal rendering of a timestamp (the model of `isoformat`). -/
def natToString (n : Nat) : String :=
  if n = 0 then "0"
  else String.mk ((Nat.digits 10 n).reverse.map digitChar)

/-- Decimal parsing of a timestamp (the model of `fromisoformat`). -/
def parseNat? (s : String) : Option Nat :=
  let cs := s.toList
  if cs.isEmpty then none
  else if cs.all (fun c => 48 ≤ c.toNat && c.toNat ≤ 57) then
    some (Nat.ofDigits 10 (cs.reverse.map (fun c => c.toNat - 48)))
  else none

/-- Serialised `TaskStatus` enum value. -/
def statusToStr : TaskStatus → String
  | .created => "created"
  | .parsing => "parsing"
  | .parsed => "parsed"
  | .downloading => "downloading"
  | .packing => "packing"
  | .completed => "completed"
  | .failed => "failed"

/-- Validate a serialised `TaskStatus` value. -/
def strToStatus? (s : String) : Option TaskStatus :=
  if s = "created" then some .created
  else if s = "parsing" then some .parsing
  else if s = "parsed" then some .parsed
  else if s = "downloading" then some .downloading
  else if s = "packing" then some .packing
  else if s = "completed" then some .completed
  else if s = "failed" then some .failed
  else none

/-- Encode an optional value, `null` when absent. -/
def encodeOpt {α : Type} (f : α → Json) : Option α → Json
  | none => Json.null
  | some a => f a

/-- Serialise `DownloadOptions`. -/
def encodeOptions (o : DownloadOptions) : Json :=
  .obj [("npm", .bool o.npm), ("pypi", .bool o.pypi),
        ("node_version", .str o.node_version),
        ("python_version", .str o.python_version),
        ("platforms", .arr (o.platforms.map Json.str))]

/-- Validate a serialised string list. -/
def decodeStrList : List Json → Option (List String)
  | [] => some []
  | .str s :: rest => (decodeStrList rest).map (fun l => s :: l)
  | _ => none

/-- Validate serialised `DownloadOptions`. -/
def decodeOptions : Json → Option DownloadOptions
  | .obj [("npm", .bool npm), ("pypi", .bool pypi),
          ("node_version", .str nv), ("python_version", .str pv),
          ("platforms", .arr ps)] =>
    (decodeStrList ps).map (fun platforms =>
      { npm := npm, pypi := pypi, node_version := nv,
        python_version := pv, platforms := platforms })
  | _ => none

mutual

/-- Serialise a `DependencyNode` (recursively). -/
def encodeNode : DependencyNode → Json
  | .mk name version children =>
    .obj [("name", .str name), ("version", .str version),
          ("children", .arr (encodeNodes children))]

/-- Serialise a list of `DependencyNode`s. -/
def encodeNodes : List DependencyNode → List Json
  | [] => []
  | n :: ns => encodeNode n :: encodeNodes ns

end

mutual

/-- Validate a serialised `DependencyNode`. -/
def decodeNode : Json → Option DependencyNode
  | .obj [("name", .str name), ("version", .str version),
          ("children", .arr cs)] =>
    (decodeNodes cs).map (fun children => .mk name version children)
  | _ => none

/-- Validate a serialised list of `DependencyNode`s. -/
def decodeNodes : List Json → Option (List DependencyNode)
  | [] => some []
  | j :: js =>
    match decodeNode j, decodeNodes js with
    | some n, some ns => some (n :: ns)
    | _, _ => none

end

/-- Serialise a `PackageInfo`. -/
def encodePkg (p : PackageInfo) : Json :=
  .obj [("name", .str p.name), ("version", .str p.version),
        ("size", encodeOpt Json.num p.size)]

/-- Validate a serialised `PackageInfo`. -/
def decodePkg : Json → Option PackageInfo
  | .obj [("name", .str name), ("version", .str version), ("size", sz)] =>
    match sz with
    | .null => some { name := name, version := version, size := none }
    | .num n => some { name := name, version := version, size := some n }
    | _ => none
  | _ => none

/-- Validate a serialised list of `PackageInfo`s. -/
def decodePkgs : List Json → Option (List PackageInfo)
  | [] => some []
  | j :: js =>
    match decodePkg j, decodePkgs js with
    | some p, some ps => some (p :: ps)
    | _, _ => none

/-- Serialise a `DownloadProgress`. -/
def encodeProgress (p : DownloadProgress) : Json :=
  .obj [("total", .num p.total), ("completed", .num p.completed),
        ("failed", .num p.failed),
        ("failed_packages", .arr (p.failed_packages.map Json.str))]

/-- Validate a serialised `DownloadProgress`. -/
def decodeProgress : Json → Option DownloadProgress
  | .obj [("total", .num t), ("completed", .num c), ("failed", .num f),
          ("failed_packages", .arr fp)] =>
    (decodeStrList fp).map (fun failed_packages =>
      { total := t, completed := c, failed := f,
        failed_packages := failed_packages })
  | _ => none

/-- The key/value list of a serialised task record, fields in
declaration order. -/
def taskFields (v1 v2 v3 v4 v5 v6 v7 v8 v9 v10 v11 v12 v13 : Json) :
    List (String × Json) :=
  [("task_id", v1), ("status", v2), ("files", v3), ("options", v4),
   ("npm_dependencies", v5), ("pypi_dependencies", v6),
   ("npm_progress", v7), ("pypi_progress", v8), ("archive_url", v9),
   ("archive_size", v10), ("error", v11), ("created_at", v12),
   ("completed_at", v13)]

/-- `task.model_dump(mode="json")`: the full serialised task record. -/
def encodeTaskInfo (t : TaskInfo) : Json :=
  .obj (taskFields
    (.str t.task_id)
    (.str (statusToStr t.status))
    (.arr (t.files.map Json.str))
    (encodeOptions t.options)
    (encodeOpt encodeNode t.npm_dependencies)
    (.arr (t.pypi_dependencies.map encodePkg))
    (encodeProgress t.npm_progress)
    (encodeProgress t.pypi_progress)
    (encodeOpt Json.str t.archive_url)
    (encodeOpt Json.num t.archive_size)
    (encodeOpt Json.str t.error)
    (.str (natToString t.created_at))
    (encodeOpt (fun n => Json.str (natToString n)) t.completed_at))

/-- Field access in a serialised record (pydantic matches constructor
arguments by key, not by position). -/
def jsonField (fields : List (String × Json)) (key : String) : Option Json :=
  List.lookup key fields

/-- `TaskInfo(**data)`: validate the full serialised task record,
field by field. -/
def decodeTaskInfo : Json → Option TaskInfo
  | .obj fields => do
    let task_id ← match jsonField fields "task_id" with
      | some (.str s) => some s
      | _ => none
    let status ← match jsonField fields "status" with
      | some (.str s) => strToStatus? s
      | _ => none
    let files ← match jsonField fields "files" with
      | some (.arr a) => decodeStrList a
      | _ => none
    let options ← match jsonField fields "options" with
      | some j => decodeOptions j
      | _ => none
    let npm_dependencies ← match jsonField fields "npm_dependencies" with
      | some .null => some none
      | some j => (decodeNode j).map some
      | _ => none
    let pypi_dependencies ← match jsonField fields "pypi_dependencies" with
      | some (.arr a) => decodePkgs a
      | _ => none
    let npm_progress ← match jsonField fields "npm_progress" with
      | some j => decodeProgress j
      | _ => none
    let pypi_progress ← match jsonField fields "pypi_progress" with
      | some j => decodeProgress j
      | _ => none
    let archive_url ← match jsonField fields "archive_url" with
      | some .null => some none
      | some (.str s) => some (some s)
      | _ => none
    let archive_size ← match jsonField fields "archive_size" with
      | some .null => some none
      | some (.num n) => some (some n)
      | _ => none
    let error ← match jsonField fields "error" with
      | some .null => some none
      | some (.str s) => some (some s)
      | _ => none
    let created_at ← match jsonField fields "created_at" with
      | some (.str s) => parseNat? s
      | _ => none
    let completed_at ← match jsonField fields "completed_at" with
      | some .null => some none
      | some (.str s) => (parseNat? s).map some
      | _ => none
    some { task_id := task_id, status := status, files := files,
           options := options, npm_dependencies := npm_dependencies,
           pypi_dependencies := pypi_dependencies,
           npm_progress := npm_progress, pypi_progress := pypi_progress,
           archive_url := archive_url, archive_size := archive_size,
           error := error, created_at := created_at,
           completed_at := completed_at }
  | _ => none

/-- `TaskManager._save_task_info` (task_manager.py 133-144): the JSON
document written to `task_info.json`. -/
def TaskManager.save_task_info (t : TaskInfo) : Json :=
  encodeTaskInfo t

/-- `TaskManager._load_task_info` (task_manager.py 146-160): read the
document back and validate it. -/
def TaskManager.load_task_info (j : Json) : Option TaskInfo :=
  decodeTaskInfo j

/-! ### Concrete inputs used by witnesses and counterexamples -/

/-- A minimal task record in a given status. -/
def sampleTask (s : TaskStatus) : TaskInfo :=
  { task_id := "t1", status := s, files := ["package.json"],
    options := {}, created_at := 1000 }

/-- Download-trigger pipeline outcomes where every step succeeds. -/
def sampleDlEnv : DownloadBgEnv :=
  { npmResult := .ok {}, pypiResult := .ok {}, archiveResult := .ok 7,
    now := 2000 }

/-- Download-trigger pipeline outcomes where archiving fails. -/
def sampleDlEnvFail : DownloadBgEnv :=
  { npmResult := .ok {}, pypiResult := .ok {},
    archiveResult := .error "disk full", now := 2000 }

/-- Parse-trigger pipeline outcomes where both resolves succeed. -/
def sampleParseEnv : ParseBgEnv :=
  { npmResult := .ok none, pypiResult := .ok [] }

/-- The requirements.txt of the C4 scenario: one file of three lines. -/
def c4Input : List (List (List Char)) :=
  [[("flask==3.0.0").toList, ("# comment").toList,
    ("requests>=2.31.0").toList]]

/-- The stdout of one successful single-package `pip download` run:
pip emits `Collecting`, `Downloading`, `Saved` and a final
`Successfully downloaded` line for the one requirement. -/
def c1PipRun : PipRun :=
  { stdoutLines :=
      [("Collecting flask").toList,
       ("  Downloading flask-3.0.0-py3-none-any.whl (101 kB)").toList,
       ("Saved ./flask-3.0.0-py3-none-any.whl").toList,
       ("Successfully downloaded flask").toList],
    returncode := 0, stderr := [] }

/-- `PyPIDownloader.download_packages` run on a one-line requirements
file for a single platform with the pip output above. -/
def c1Result : DownloadProgress :=
  PyPIDownloader.download_packages [[("flask==3.0.0").toList]]
    ["win_amd64"] (fun _ _ => c1PipRun) {}

/-- 25 tasks with pairwise distinct creation times. -/
def c7Tasks : List TaskInfo :=
  (List.range 25).map (fun i => { sampleTask .created with created_at := i })

/-- Root-directory entries for the cleanup scenario (times in seconds,
"now" being hour 100): a task created 25 hours ago, a directory with
corrupt metadata, a directory without metadata, and a task created
1 hour ago. -/
def c9Entries : List DirEntry :=
  [{ name := "bad", isDir := true, metaFile := .corrupt },
   { name := "old", isDir := true, metaFile := .valid "old" (75 * 3600) },
   { name := "noinfo", isDir := true, metaFile := .absent },
   { name := "new", isDir := true, metaFile := .valid "new" (99 * 3600) }]

/-- Manager state for the cleanup scenario. -/
def c9State : TMState :=
  { entries := c9Entries,
    tasks := [("old", { sampleTask .completed with
                        task_id := "old"
                        created_at := 75 * 3600 }),
              ("new", { sampleTask .completed with
                        task_id := "new"
                        created_at := 99 * 3600 })] }

/-- `now - timedelta(hours=24)` at hour 100, in seconds. -/
def c9Expiry : Nat := (100 - 24) * 3600

/-! ## Theorems -/

/-- C1: the claim states that `completed + failed <= total` holds
after every progress update of a download trigger, for every platform
list and every sequence of per-package outcomes.  The pypi pipeline
violates it: `total` is the count of requirement lines, but
`completed` is incremented once per `Saved`/`Successfully downloaded`
stdout line (and again on every further platform), so a single
successful one-requirement download already ends with
`completed = 2 > 1 = total`. -/
theorem C1_pypi_progress_exceeds_total :
    c1Result.total = 1 ∧ c1Result.completed = 2 ∧ c1Result.failed = 0 ∧
      c1Result.total < c1Result.completed + c1Result.failed := by
  decide

/-- C4 (counterexample): parsing the scenario requirements file does
not yield a `requests` entry with version `">=2.31.0"` — group 3 of
the regex excludes the operator characters. -/
theorem C4_requests_version_claim_false :
    PyPIDownloader.parse_dependencies c4Input ≠
      [{ name := "flask", version := "3.0.0" },
       { name := "requests", version := ">=2.31.0" }] := by
  decide

/-- C4 (amended): parsing the scenario file yields exactly two
entries, `flask`/`3.0.0` and `requests`/`2.31.0` (the operator of a
version specifier is stripped; only the text after it is kept);
blank lines and comment lines produce no entries; and a line that is
a bare package name yields version `"latest"`. -/
theorem C4_parse_requirements :
    PyPIDownloader.parse_dependencies c4Input =
      [{ name := "flask", version := "3.0.0" },
       { name := "requests", version := "2.31.0" }]
  ∧ (∀ raw : List Char, (pyStrip raw).isEmpty = true → parseReqLine raw = none)
  ∧ (∀ raw : List Char, (pyStrip raw).head? = some '#' → parseReqLine raw = none)
  ∧ (∀ raw : List Char, pyStrip raw ≠ [] →
      (∀ c ∈ pyStrip raw, isNameChar c = true) →
      parseReqLine raw = some { name := String.mk (pyStrip raw), version := "latest" }) := by
  refine ⟨by decide, ?_, ?_, ?_⟩
  · intro raw h
    simp [parseReqLine, h]
  · intro raw h
    cases hl : pyStrip raw with
    | nil => rw [hl] at h; cases h
    | cons c t =>
      rw [hl] at h
      simp only [List.head?_cons, Option.some.injEq] at h
      simp [parseReqLine, hl, h]
  · intro raw hne hall
    cases hl : pyStrip raw with
    | nil => exact absurd hl hne
    | cons c t =>
      rw [hl] at hall
      have hc : isNameChar c = true := hall c (by simp)
      have hhash : ¬ (c = '#') := by
        intro e; rw [e] at hc; exact absurd hc (by decide)
      have htake : (c :: t).takeWhile isNameChar = c :: t :=
        List.takeWhile_eq_self_iff.mpr hall
      have hdrop : (c :: t).dropWhile isNameChar = [] :=
        List.dropWhile_eq_nil_iff.mpr hall
      simp [parseReqLine, hl, htake, hdrop, hhash]

/-- C4 (witness): the amended theorem applied to a comment line, a
blank line, and a bare package name. -/
theorem C4_parse_requirements_witness :
    parseReqLine ("   ").toList = none
  ∧ parseReqLine ("# comment").toList = none
  ∧ parseReqLine ("requests").toList =
      some { name := String.mk (pyStrip ("requests").toList), version := "latest" } :=
  ⟨C4_parse_requirements.2.1 ("   ").toList (by decide),
   C4_parse_requirements.2.2.1 ("# comment").toList (by decide),
   C4_parse_requirements.2.2.2 ("requests").toList (by decide) (by decide)⟩

/-- C6: `delete_task` always returns `True`, deleting twice equals
deleting once (the second call on an absent task still succeeds), and
after a delete neither the task's directory nor its in-memory record
remains. -/
theorem C6_delete_idempotent :
    ∀ (st : TMState) (id : String),
      (TaskManager.delete_task st id).1 = true
    ∧ TaskManager.delete_task (TaskManager.delete_task st id).2 id
        = TaskManager.delete_task st id
    ∧ (∀ e ∈ (TaskManager.delete_task st id).2.entries, e.name ≠ id)
    ∧ (∀ p ∈ (TaskManager.delete_task st id).2.tasks, p.1 ≠ id) := by
  intro st id
  refine ⟨rfl, ?_, ?_, ?_⟩
  · simp [TaskManager.delete_task, List.filter_filter]
  · intro e he
    simp only [TaskManager.delete_task, List.mem_filter,
      decide_eq_true_eq] at he
    exact he.2
  · intro p hp
    simp only [TaskManager.delete_task, List.mem_filter,
      decide_eq_true_eq] at hp
    exact hp.2

/-- C6 (witness): deleting a concrete task twice, and the directory
named `bad` surviving a delete of `old` indeed was not `old`'s. -/
theorem C6_delete_idempotent_witness :
    (TaskManager.delete_task c9State "old").1 = true
  ∧ TaskManager.delete_task (TaskManager.delete_task c9State "old").2 "old"
      = TaskManager.delete_task c9State "old"
  ∧ ({ name := "bad", isDir := true, metaFile := .corrupt } : DirEntry).name ≠ "old" :=
  ⟨(C6_delete_idempotent c9State "old").1,
   (C6_delete_idempotent c9State "old").2.1,
   (C6_delete_idempotent c9State "old").2.2.1
     { name := "bad", isDir := true, metaFile := .corrupt } (by decide)⟩

/-- C8: when the ecosystem's primary manifest is absent, both resolve
operations return the none/empty result without error and both download
operations return the prior progress record unchanged. -/
theorem C8_absent_manifest_noop :
    (∀ env : NpmParseEnv, NPMDownloader.parse_dependencies false env = .ok none)
  ∧ PyPIDownloader.parse_dependencies [] = []
  ∧ (∀ (code : Nat) (stderrS : String) (nm : Option (List String))
       (packOk : String → Bool) (progress : DownloadProgress),
       NPMDownloader.download_packages false code stderrS nm packOk progress
         = .ok (progress, []))
  ∧ (∀ (platforms : List String) (pipRun : String → Nat → PipRun)
       (progress : DownloadProgress),
       PyPIDownloader.download_packages [] platforms pipRun progress = progress) :=
  ⟨fun _ => rfl, rfl, fun _ _ _ _ _ => rfl, fun _ _ _ => rfl⟩

/-- Characterisation of the npm pack loop: the counters advance by
exactly one for every non-scoped directory, `total` is untouched, and
exactly the non-scoped directories are handed to `npm pack`. -/
theorem npmPackFold (packOk : String → Bool) (names : List String) :
    ∀ st : DownloadProgress × List String,
      ((names.foldl (npmPackStep packOk) st).1.completed
          + (names.foldl (npmPackStep packOk) st).1.failed
        = st.1.completed + st.1.failed
          + names.countP (fun n => !(pyStartsWith n "@")))
    ∧ (names.foldl (npmPackStep packOk) st).1.total = st.1.total
    ∧ (names.foldl (npmPackStep packOk) st).2
        = st.2 ++ names.filter (fun n => !(pyStartsWith n "@")) := by
  induction names with
  | nil => intro st; simp
  | cons h t ih =>
    intro st
    simp only [List.foldl_cons, List.countP_cons, List.filter_cons]
    by_cases hs : pyStartsWith h "@" = true
    · have e : npmPackStep packOk st h = st := by
        simp [npmPackStep, hs]
      rcases ih st with ⟨h1, h2, h3⟩
      rw [e]
      refine ⟨?_, h2, ?_⟩
      · simp [h1, hs]
      · simp [h3, hs]
    · have hs' : pyStartsWith h "@" = false := by
        simpa using hs
      by_cases hp : packOk h = true
      · have e : npmPackStep packOk st h =
            ({ st.1 with completed := st.1.completed + 1 }, st.2 ++ [h]) := by
          simp [npmPackStep, hs', hp]
        rcases ih ({ st.1 with completed := st.1.completed + 1 }, st.2 ++ [h])
          with ⟨h1, h2, h3⟩
        rw [e]
        refine ⟨?_, by simpa using h2, ?_⟩
        · simp only [h1]; simp [hs']; omega
        · simp [h3, hs']
      · have hp' : packOk h = false := by simpa using hp
        have e : npmPackStep packOk st h =
            ({ st.1 with failed := st.1.failed + 1,
                         failed_packages := st.1.failed_packages ++ [h] },
             st.2 ++ [h]) := by
          simp [npmPackStep, hs', hp']
        rcases ih ({ st.1 with failed := st.1.failed + 1,
                               failed_packages := st.1.failed_packages ++ [h] },
                   st.2 ++ [h]) with ⟨h1, h2, h3⟩
        rw [e]
        refine ⟨?_, by simpa using h2, ?_⟩
        · simp only [h1]; simp [hs']; omega
        · simp [h3, hs']

/-- C10: the npm pack phase sets `total` to the number of first-level
`node_modules` directories including scoped-namespace ones, but skips
scoped directories without packing them and without touching the
counters; hence no scoped directory is ever handed to `npm pack`, and
as soon as one scoped directory exists, `completed + failed` ends
strictly below `total`. -/
theorem C10_scoped_dirs_skipped :
    ∀ (names : List String) (packOk : String → Bool)
      (progress : DownloadProgress),
      progress.completed = 0 → progress.failed = 0 →
      ∃ p packed,
        NPMDownloader.download_packages true 0 "" (some names) packOk progress
          = .ok (p, packed)
        ∧ p.total = names.length
        ∧ (∀ n ∈ packed, pyStartsWith n "@" = false)
        ∧ ((∃ n ∈ names, pyStartsWith n "@" = true) →
            p.completed + p.failed < p.total) := by
  intro names packOk progress hc hf
  rcases npmPackFold packOk names ({ progress with total := names.length }, [])
    with ⟨h1, h2, h3⟩
  refine ⟨_, _, rfl, h2, ?_, ?_⟩
  · intro n hn
    rw [h3] at hn
    simp only [List.nil_append, List.mem_filter, Bool.not_eq_true'] at hn
    exact hn.2
  · intro hex
    have hpos : 0 < names.countP (fun n => pyStartsWith n "@") :=
      List.countP_pos_iff.mpr (by simpa using hex)
    have hcongr : List.countP (fun a => decide ¬(pyStartsWith a "@" = true)) names
        = List.countP (fun n => !(pyStartsWith n "@")) names :=
      List.countP_congr (fun x _ => by cases hx : pyStartsWith x "@" <;> simp [hx])
    have hlen := List.length_eq_countP_add_countP
      (fun n => pyStartsWith n "@") names
    rw [hcongr] at hlen
    rw [h1, h2]
    simp only [hc, hf]
    omega

/-- C10 (witness): with directories `@types` and `lodash` and `npm
pack` succeeding, the final counters sum to 1 while `total` is 2. -/
theorem C10_scoped_dirs_witness :
    ∃ p packed,
      NPMDownloader.download_packages true 0 "" (some ["@types", "lodash"])
        (fun _ => true) {} = .ok (p, packed)
      ∧ p.completed + p.failed < p.total :=
  match C10_scoped_dirs_skipped ["@types", "lodash"] (fun _ => true) {} rfl rfl with
  | ⟨p, packed, e1, _, _, e4⟩ =>
    ⟨p, packed, e1, e4 ⟨"@types", by decide, by decide⟩⟩

/-- The download trigger body commits one of exactly three status
chains. -/
theorem download_bg_statuses (env : DownloadBgEnv) (t : TaskInfo) :
    (download_packages_background env t).2 = [.downloading, .failed]
  ∨ (download_packages_background env t).2 = [.downloading, .packing, .failed]
  ∨ (download_packages_background env t).2 = [.downloading, .packing, .completed] := by
  simp only [download_packages_background]
  split
  · simp
  · split
    · simp
    · split <;> simp

/-- The parse trigger body commits one of exactly two status chains. -/
theorem parse_bg_statuses (env : ParseBgEnv) (t : TaskInfo) :
    (parse_dependencies_background env t).2 = [.parsing, .failed]
  ∨ (parse_dependencies_background env t).2 = [.parsing, .parsed] := by
  simp only [parse_dependencies_background]
  split
  · simp
  · split <;> simp

/-- C2: the download trigger is rejected with a 400 error — leaving
the store, hence the task's status, unchanged — whenever the task is
not in `created` or `parsed` (in particular when it is `failed`); and
every status chain committed by an accepted download or parse trigger
follows the edges of the lifecycle state machine. -/
theorem C2_lifecycle_transitions :
    (∀ (env : DownloadBgEnv) (st : TaskStore) (id : String) (t : TaskInfo),
       st.find? id = some t → t.status ≠ .created → t.status ≠ .parsed →
       start_download_route env st id
         = (.error (.badRequest "cannot download"), st))
  ∧ (∀ (env : DownloadBgEnv) (t : TaskInfo),
       t.status = .created ∨ t.status = .parsed →
       List.Chain' (fun a b => LegalEdge a b = true)
         (t.status :: (download_packages_background env t).2))
  ∧ (∀ (env : ParseBgEnv) (t : TaskInfo), t.status = .created →
       List.Chain' (fun a b => LegalEdge a b = true)
         (t.status :: (parse_dependencies_background env t).2)) := by
  refine ⟨?_, ?_, ?_⟩
  · intro env st id t hfind h1 h2
    simp [start_download_route, hfind, h1, h2]
  · intro env t ht
    rcases download_bg_statuses env t with h | h | h <;> rw [h] <;>
      rcases ht with ht | ht <;> rw [ht] <;>
      simp [List.chain'_cons, List.chain'_singleton, LegalEdge]
  · intro env t ht
    rcases parse_bg_statuses env t with h | h <;> rw [h] <;> rw [ht] <;>
      simp [List.chain'_cons, List.chain'_singleton, LegalEdge]

/-- C2 (witness): a `failed` task's download trigger is rejected with
the store unchanged, and the success chains of both triggers from
`created` are legal. -/
theorem C2_lifecycle_transitions_witness :
    start_download_route sampleDlEnv [("t1", sampleTask .failed)] "t1"
      = (.error (.badRequest "cannot download"), [("t1", sampleTask .failed)])
  ∧ List.Chain' (fun a b => LegalEdge a b = true)
      ((sampleTask .created).status ::
        (download_packages_background sampleDlEnv (sampleTask .created)).2)
  ∧ List.Chain' (fun a b => LegalEdge a b = true)
      ((sampleTask .created).status ::
        (parse_dependencies_background sampleParseEnv (sampleTask .created)).2) :=
  ⟨C2_lifecycle_transitions.1 sampleDlEnv [("t1", sampleTask .failed)] "t1"
      (sampleTask .failed) rfl (by decide) (by decide),
   C2_lifecycle_transitions.2.1 sampleDlEnv (sampleTask .created) (Or.inl rfl),
   C2_lifecycle_transitions.2.2 sampleParseEnv (sampleTask .created) rfl⟩

/-- The final record of a download trigger carries
`completed_at = now` exactly when it ended `completed`, and its final
status is always `completed` or `failed`. -/
theorem download_bg_completed_at (env : DownloadBgEnv) (t : TaskInfo) :
    (download_packages_background env t).1.completed_at
      = (if (download_packages_background env t).1.status = .completed
         then some env.now else t.completed_at)
  ∧ ((download_packages_background env t).1.status = .completed
     ∨ (download_packages_background env t).1.status = .failed) := by
  simp only [download_packages_background]
  split
  · simp [failUpdate]
  · split
    · simp [failUpdate]
    · split
      · simp [failUpdate]
      · simp

/-- C3 (counterexample): a task whose download trigger fails at the
packaging step terminates `failed` with `completed_at` still unset,
while the claim asserts a Failed task has a non-empty `completed_at`. -/
theorem C3_failed_task_completed_at_none :
    (download_packages_background sampleDlEnvFail (sampleTask .parsed)).1.status
      = .failed
  ∧ (download_packages_background sampleDlEnvFail (sampleTask .parsed)).1.completed_at
      = none := by
  exact ⟨rfl, rfl⟩

/-- C3 (amended): `completed_at` is written exactly once, at the
`completed` terminal transition of the download trigger: a task
entering `completed` gets `completed_at = now`, a task entering
`failed` keeps `completed_at` unset, the parse trigger never touches
it, and no trigger is accepted on a terminal (`completed` or
`failed`) task, so the value is never overwritten afterwards. -/
theorem C3_completed_at_only_on_completed :
    (∀ (env : DownloadBgEnv) (t : TaskInfo), t.completed_at = none →
       ((download_packages_background env t).1.status = .completed →
          (download_packages_background env t).1.completed_at = some env.now)
       ∧ ((download_packages_background env t).1.status = .failed →
          (download_packages_background env t).1.completed_at = none))
  ∧ (∀ (env : ParseBgEnv) (t : TaskInfo),
       (parse_dependencies_background env t).1.completed_at = t.completed_at)
  ∧ (∀ (dlEnv : DownloadBgEnv) (pEnv : ParseBgEnv) (st : TaskStore)
       (id : String) (t : TaskInfo),
       st.find? id = some t → t.status = .completed ∨ t.status = .failed →
       start_download_route dlEnv st id
           = (.error (.badRequest "cannot download"), st)
       ∧ parse_task_route pEnv st id
           = (.error (.badRequest "cannot parse"), st)) := by
  refine ⟨?_, ?_, ?_⟩
  · intro env t hnone
    rcases download_bg_completed_at env t with ⟨hca, hst⟩
    constructor
    · intro hs
      rw [hca, if_pos hs]
    · intro hs
      rw [hca, if_neg ?_, hnone]
      rw [hs]
      intro h
      cases h
  · intro env t
    simp only [parse_dependencies_background]
    split
    · simp [failUpdate]
    · split
      · simp [failUpdate]
      · simp
  · intro dlEnv pEnv st id t hfind hstat
    rcases hstat with h | h <;>
      exact ⟨by simp [start_download_route, hfind, h],
             by simp [parse_task_route, hfind, h]⟩

/-- C3 (witness): a successful download on a fresh task stamps
`completed_at` with the completion time; a parse leaves it unset; a
`completed` task's download trigger is rejected unchanged. -/
theorem C3_completed_at_witness :
    (download_packages_background sampleDlEnv (sampleTask .parsed)).1.completed_at
      = some 2000
  ∧ (parse_dependencies_background sampleParseEnv (sampleTask .created)).1.completed_at
      = none
  ∧ start_download_route sampleDlEnv [("t1", sampleTask .completed)] "t1"
      = (.error (.badRequest "cannot download"), [("t1", sampleTask .completed)]) :=
  ⟨(C3_completed_at_only_on_completed.1 sampleDlEnv (sampleTask .parsed) rfl).1 rfl,
   C3_completed_at_only_on_completed.2.1 sampleParseEnv (sampleTask .created),
   (C3_completed_at_only_on_completed.2.2 sampleDlEnv sampleParseEnv
      [("t1", sampleTask .completed)] "t1" (sampleTask .completed) rfl
      (Or.inl rfl)).1⟩

/-- Every rendered digit character lies in the ASCII digit range. -/
theorem digitChar_range (d : Nat) :
    48 ≤ (digitChar d).toNat ∧ (digitChar d).toNat ≤ 57 := by
  unfold digitChar
  split <;> decide

/-- Rendering then reading a decimal digit is the identity. -/
theorem digitChar_toNat (d : Nat) (h : d < 10) :
    (digitChar d).toNat - 48 = d := by
  interval_cases d <;> decide

/-- The decimal rendering of a timestamp parses back to it. -/
theorem parseNat?_natToString (n : Nat) : parseNat? (natToString n) = some n := by
  by_cases h0 : n = 0
  · subst h0; decide
  · have hne : Nat.digits 10 n ≠ [] := Nat.digits_ne_nil_iff_ne_zero.mpr h0
    have hd10 : ∀ d ∈ Nat.digits 10 n, d < 10 := fun d hd =>
      Nat.digits_lt_base (by norm_num) hd
    unfold natToString parseNat?
    rw [if_neg h0]
    have hdata : (String.mk ((Nat.digits 10 n).reverse.map digitChar)).toList
        = (Nat.digits 10 n).reverse.map digitChar := rfl
    rw [hdata]
    have hnonempty : ((Nat.digits 10 n).reverse.map digitChar).isEmpty = false := by
      rw [List.isEmpty_eq_false]
      simp [hne]
    have hall : ((Nat.digits 10 n).reverse.map digitChar).all
        (fun c => 48 ≤ c.toNat && c.toNat ≤ 57) = true := by
      rw [List.all_eq_true]
      intro c hc
      rcases List.mem_map.1 hc with ⟨d, _, rfl⟩
      rcases digitChar_range d with ⟨h1, h2⟩
      simp [h1, h2]
    simp only [hnonempty, hall, Bool.false_eq_true, if_false, if_true]
    have hrev : ((Nat.digits 10 n).reverse.map digitChar).reverse
        = (Nat.digits 10 n).map digitChar := by
      rw [← List.map_reverse, List.reverse_reverse]
    rw [hrev, List.map_map]
    have hid : (Nat.digits 10 n).map ((fun c : Char => c.toNat - 48) ∘ digitChar)
        = Nat.digits 10 n := by
      have := List.map_congr_left (l := Nat.digits 10 n)
        (f := (fun c : Char => c.toNat - 48) ∘ digitChar) (g := id)
        (fun d hd => digitChar_toNat d (hd10 d hd))
      rw [this, List.map_id]
    rw [hid, Nat.ofDigits_digits]

/-- Status values survive serialisation. -/
theorem strToStatus?_statusToStr (s : TaskStatus) :
    strToStatus? (statusToStr s) = some s := by
  cases s <;> rfl

/-- String lists survive serialisation. -/
theorem decodeStrList_map (l : List String) :
    decodeStrList (l.map Json.str) = some l := by
  induction l with
  | nil => rfl
  | cons h t ih => simp [decodeStrList, ih]

/-- Options records survive serialisation. -/
theorem decodeOptions_encodeOptions (o : DownloadOptions) :
    decodeOptions (encodeOptions o) = some o := by
  obtain ⟨npm, pypi, nv, pv, platforms⟩ := o
  simp [encodeOptions, decodeOptions, decodeStrList_map]

mutual

/-- Dependency nodes survive serialisation. -/
theorem decodeNode_encodeNode :
    ∀ n : DependencyNode, decodeNode (encodeNode n) = some n
  | .mk name version children => by
    simp [encodeNode, decodeNode, decodeNodes_encodeNodes children]

/-- Dependency-node lists survive serialisation. -/
theorem decodeNodes_encodeNodes :
    ∀ l : List DependencyNode, decodeNodes (encodeNodes l) = some l
  | [] => rfl
  | n :: ns => by
    simp [encodeNodes, decodeNodes, decodeNode_encodeNode n,
      decodeNodes_encodeNodes ns]

end

/-- Package entries survive serialisation. -/
theorem decodePkg_encodePkg (p : PackageInfo) :
    decodePkg (encodePkg p) = some p := by
  obtain ⟨name, version, size⟩ := p
  cases size <;> simp [encodePkg, decodePkg, encodeOpt]

/-- Package lists survive serialisation. -/
theorem decodePkgs_map (l : List PackageInfo) :
    decodePkgs (l.map encodePkg) = some l := by
  induction l with
  | nil => rfl
  | cons h t ih => simp [decodePkgs, decodePkg_encodePkg h, ih]

/-- Progress records survive serialisation. -/
theorem decodeProgress_encodeProgress (p : DownloadProgress) :
    decodeProgress (encodeProgress p) = some p := by
  obtain ⟨total, completed, failed, failed_packages⟩ := p
  simp [encodeProgress, decodeProgress, decodeStrList_map]

/-- Lookup of `task_id` in a serialised task record. -/
theorem jsonField_task_id (v1 v2 v3 v4 v5 v6 v7 v8 v9 v10 v11 v12 v13 : Json) :
    jsonField (taskFields v1 v2 v3 v4 v5 v6 v7 v8 v9 v10 v11 v12 v13)
      "task_id" = some v1 := rfl

/-- Lookup of `status` in a serialised task record. -/
theorem jsonField_status (v1 v2 v3 v4 v5 v6 v7 v8 v9 v10 v11 v12 v13 : Json) :
    jsonField (taskFields v1 v2 v3 v4 v5 v6 v7 v8 v9 v10 v11 v12 v13)
      "status" = some v2 := rfl

/-- Lookup of `files` in a serialised task record. -/
theorem jsonField_files (v1 v2 v3 v4 v5 v6 v7 v8 v9 v10 v11 v12 v13 : Json) :
    jsonField (taskFields v1 v2 v3 v4 v5 v6 v7 v8 v9 v10 v11 v12 v13)
      "files" = some v3 := rfl

/-- Lookup of `options` in a serialised task record. -/
theorem jsonField_options (v1 v2 v3 v4 v5 v6 v7 v8 v9 v10 v11 v12 v13 : Json) :
    jsonField (taskFields v1 v2 v3 v4 v5 v6 v7 v8 v9 v10 v11 v12 v13)
      "options" = some v4 := rfl

/-- Lookup of `npm_dependencies` in a serialised task record. -/
theorem jsonField_npm_dependencies
    (v1 v2 v3 v4 v5 v6 v7 v8 v9 v10 v11 v12 v13 : Json) :
    jsonField (taskFields v1 v2 v3 v4 v5 v6 v7 v8 v9 v10 v11 v12 v13)
      "npm_dependencies" = some v5 := rfl

/-- Lookup of `pypi_dependencies` in a serialised task record. -/
theorem jsonField_pypi_dependencies
    (v1 v2 v3 v4 v5 v6 v7 v8 v9 v10 v11 v12 v13 : Json) :
    jsonField (taskFields v1 v2 v3 v4 v5 v6 v7 v8 v9 v10 v11 v12 v13)
      "pypi_dependencies" = some v6 := rfl

/-- Lookup of `npm_progress` in a serialised task record. -/
theorem jsonField_npm_progress
    (v1 v2 v3 v4 v5 v6 v7 v8 v9 v10 v11 v12 v13 : Json) :
    jsonField (taskFields v1 v2 v3 v4 v5 v6 v7 v8 v9 v10 v11 v12 v13)
      "npm_progress" = some v7 := rfl

/-- Lookup of `pypi_progress` in a serialised task record. -/
theorem jsonField_pypi_progress
    (v1 v2 v3 v4 v5 v6 v7 v8 v9 v10 v11 v12 v13 : Json) :
    jsonField (taskFields v1 v2 v3 v4 v5 v6 v7 v8 v9 v10 v11 v12 v13)
      "pypi_progress" = some v8 := rfl

/-- Lookup of `archive_url` in a serialised task record. -/
theorem jsonField_archive_url
    (v1 v2 v3 v4 v5 v6 v7 v8 v9 v10 v11 v12 v13 : Json) :
    jsonField (taskFields v1 v2 v3 v4 v5 v6 v7 v8 v9 v10 v11 v12 v13)
      "archive_url" = some v9 := rfl

/-- Lookup of `archive_size` in a serialised task record. -/
theorem jsonField_archive_size
    (v1 v2 v3 v4 v5 v6 v7 v8 v9 v10 v11 v12 v13 : Json) :
    jsonField (taskFields v1 v2 v3 v4 v5 v6 v7 v8 v9 v10 v11 v12 v13)
      "archive_size" = some v10 := rfl

/-- Lookup of `error` in a serialised task record. -/
theorem jsonField_error (v1 v2 v3 v4 v5 v6 v7 v8 v9 v10 v11 v12 v13 : Json) :
    jsonField (taskFields v1 v2 v3 v4 v5 v6 v7 v8 v9 v10 v11 v12 v13)
      "error" = some v11 := rfl

/-- Lookup of `created_at` in a serialised task record. -/
theorem jsonField_created_at
    (v1 v2 v3 v4 v5 v6 v7 v8 v9 v10 v11 v12 v13 : Json) :
    jsonField (taskFields v1 v2 v3 v4 v5 v6 v7 v8 v9 v10 v11 v12 v13)
      "created_at" = some v12 := rfl

/-- Lookup of `completed_at` in a serialised task record. -/
theorem jsonField_completed_at
    (v1 v2 v3 v4 v5 v6 v7 v8 v9 v10 v11 v12 v13 : Json) :
    jsonField (taskFields v1 v2 v3 v4 v5 v6 v7 v8 v9 v10 v11 v12 v13)
      "completed_at" = some v13 := rfl

set_option maxHeartbeats 1600000 in
/-- C5: persisting a task record and reloading it yields a record
field-for-field equal to the original, including the nested npm
dependency tree, the pypi package list and both progress records. -/
theorem C5_task_roundtrip (t : TaskInfo) :
    TaskManager.load_task_info (TaskManager.save_task_info t) = some t := by
  obtain ⟨tid, status, files, options, npmDeps, pypiDeps, npmProg, pypiProg,
    aUrl, aSize, err, cAt, compAt⟩ := t
  unfold TaskManager.load_task_info TaskManager.save_task_info
  simp only [encodeTaskInfo, decodeTaskInfo, jsonField_task_id,
    jsonField_status, jsonField_files, jsonField_options,
    jsonField_npm_dependencies, jsonField_pypi_dependencies,
    jsonField_npm_progress, jsonField_pypi_progress, jsonField_archive_url,
    jsonField_archive_size, jsonField_error, jsonField_created_at,
    jsonField_completed_at]
  rcases npmDeps with _ | ⟨nn, nv, nch⟩ <;>
    rcases aUrl with _ | u <;>
    rcases aSize with _ | sz <;>
    rcases err with _ | e <;>
    rcases compAt with _ | ca <;>
    simp only [encodeOpt, encodeNode, decodeNode, Option.bind_eq_bind,
      Option.some_bind, strToStatus?_statusToStr, decodeStrList_map,
      decodeOptions_encodeOptions, decodeNodes_encodeNodes, decodePkgs_map,
      decodeProgress_encodeProgress, parseNat?_natToString, Option.map_some] <;>
    rfl

/-- Stable descending insertion permutes consing. -/
theorem insertByCreatedDesc_perm (x : TaskInfo) (l : List TaskInfo) :
    List.Perm (insertByCreatedDesc x l) (x :: l) := by
  induction l with
  | nil => exact List.Perm.refl _
  | cons y ys ih =>
    unfold insertByCreatedDesc
    by_cases h : y.created_at < x.created_at
    · rw [if_pos h]
    · rw [if_neg h]
      exact (ih.cons y).trans (List.Perm.swap x y ys)

/-- Sorting permutes the task list. -/
theorem sortByCreatedDesc_perm (l : List TaskInfo) :
    List.Perm (sortByCreatedDesc l) l := by
  induction l with
  | nil => exact List.Perm.refl _
  | cons x t ih =>
    simp only [sortByCreatedDesc, List.foldr_cons]
    exact (insertByCreatedDesc_perm x _).trans (ih.cons x)

/-- Descending insertion preserves descending order. -/
theorem insertByCreatedDesc_pairwise (x : TaskInfo) (l : List TaskInfo)
    (h : List.Pairwise (fun a b => b.created_at ≤ a.created_at) l) :
    List.Pairwise (fun a b => b.created_at ≤ a.created_at)
      (insertByCreatedDesc x l) := by
  induction l with
  | nil => simp [insertByCreatedDesc]
  | cons y ys ih =>
    rcases List.pairwise_cons.1 h with ⟨hy, hys⟩
    unfold insertByCreatedDesc
    by_cases hlt : y.created_at < x.created_at
    · rw [if_pos hlt]
      refine List.pairwise_cons.2 ⟨?_, h⟩
      intro a ha
      rcases List.mem_cons.1 ha with rfl | ha'
      · exact Nat.le_of_lt hlt
      · exact Nat.le_trans (hy a ha') (Nat.le_of_lt hlt)
    · rw [if_neg hlt]
      refine List.pairwise_cons.2 ⟨?_, ih hys⟩
      intro a ha
      rcases List.mem_cons.1
          ((insertByCreatedDesc_perm x ys).mem_iff.1 ha) with rfl | ha'
      · exact Nat.le_of_not_lt hlt
      · exact hy a ha'

/-- The sorted task list is descending in `created_at`. -/
theorem sortByCreatedDesc_pairwise (l : List TaskInfo) :
    List.Pairwise (fun a b => b.created_at ≤ a.created_at)
      (sortByCreatedDesc l) := by
  induction l with
  | nil => simp [sortByCreatedDesc]
  | cons x t ih =>
    simp only [sortByCreatedDesc, List.foldr_cons]
    exact insertByCreatedDesc_pairwise x _ ih

/-- C7 (counterexample): with 25 stored tasks, the out-of-range page
`-1` (pages are 1-indexed) returns a non-empty slice of 5 tasks —
Python's negative slice indices wrap around — where the claim
requires an empty slice for any out-of-range page. -/
theorem C7_negative_page_returns_tasks :
    (TaskManager.list_tasks c7Tasks (-1) 20).1.isEmpty = false
  ∧ (TaskManager.list_tasks c7Tasks (-1) 20).1.length = 5 := by
  decide

/-- C7 (amended): `list_tasks` always reports the total count of all
tasks; every returned page is sorted by `created_at` descending; page
`0` and any page `>= 1` whose start offset `(page-1)*size` reaches the
task count return an empty slice (a negative page, however, is
interpreted by Python's wrap-around slice rules and can return a
non-empty slice); and with 25 tasks, page 2 of size 20 returns exactly
5 tasks with total 25. -/
theorem C7_list_tasks_pagination :
    (∀ (tasks : List TaskInfo) (page size : Int),
       (TaskManager.list_tasks tasks page size).2 = tasks.length)
  ∧ (∀ (tasks : List TaskInfo) (page size : Int),
       List.Pairwise (fun a b => b.created_at ≤ a.created_at)
         (TaskManager.list_tasks tasks page size).1)
  ∧ (∀ (tasks : List TaskInfo) (size : Int),
       (TaskManager.list_tasks tasks 0 size).1 = [])
  ∧ (∀ (tasks : List TaskInfo) (page size : Int),
       1 ≤ page → 0 ≤ size → (tasks.length : Int) ≤ (page - 1) * size →
       (TaskManager.list_tasks tasks page size).1 = [])
  ∧ (∀ tasks : List TaskInfo, tasks.length = 25 →
       (TaskManager.list_tasks tasks 2 20).1.length = 5
       ∧ (TaskManager.list_tasks tasks 2 20).2 = 25) := by
  refine ⟨fun _ _ _ => rfl, ?_, ?_, ?_, ?_⟩
  · intro tasks page size
    have hs := sortByCreatedDesc_pairwise tasks
    simp only [TaskManager.list_tasks, pySlice]
    exact List.Pairwise.sublist
      ((List.drop_sublist _ _).trans (List.take_sublist _ _)) hs
  · intro tasks size
    have hperm := (sortByCreatedDesc_perm tasks).length_eq
    rw [← List.length_eq_zero]
    simp only [TaskManager.list_tasks, pySlice, List.length_drop,
      List.length_take]
    omega
  · intro tasks page size hp hsz hbound
    have hperm := (sortByCreatedDesc_perm tasks).length_eq
    have hk : 0 ≤ (page - 1) * size :=
      mul_nonneg (by omega) hsz
    rw [← List.length_eq_zero]
    simp only [TaskManager.list_tasks, pySlice, List.length_drop,
      List.length_take]
    generalize hgen : (page - 1) * size = k at *
    omega
  · intro tasks h
    have hperm := (sortByCreatedDesc_perm tasks).length_eq
    constructor
    · simp only [TaskManager.list_tasks, pySlice, List.length_drop,
        List.length_take]
      omega
    · exact h ▸ rfl

/-- C7 (witness): on 25 concrete tasks, page 3 of size 20 is past the
end and comes back empty, while page 2 of size 20 returns 5 tasks and
total 25. -/
theorem C7_list_tasks_witness :
    (TaskManager.list_tasks c7Tasks 3 20).1 = []
  ∧ (TaskManager.list_tasks c7Tasks 2 20).1.length = 5
  ∧ (TaskManager.list_tasks c7Tasks 2 20).2 = 25 :=
  ⟨C7_list_tasks_pagination.2.2.2.1 c7Tasks 3 20 (by norm_num) (by norm_num)
      (by decide),
   (C7_list_tasks_pagination.2.2.2.2 c7Tasks (by decide)).1,
   (C7_list_tasks_pagination.2.2.2.2 c7Tasks (by decide)).2⟩

/-- Characterisation of the cleanup sweep over a snapshot `todo` of
directory entries whose metadata ids (when readable) name their own
directory: an element survives exactly when no expired snapshot entry
carries its name, and corrupt or metadata-less entries never cause a
deletion nor stop the fold. -/
theorem cleanup_fold (expiryTime : Nat) (todo : List DirEntry) :
    ∀ st : TMState, (∀ e ∈ todo, metaIdMatches e = true) →
      (todo.foldl (cleanupStep expiryTime) st).entries
        = st.entries.filter
            (fun x => !(todo.any
                (fun e => expiredEntry expiryTime e && e.name == x.name)))
      ∧ (todo.foldl (cleanupStep expiryTime) st).tasks
        = st.tasks.filter
            (fun p => !(todo.any
                (fun e => expiredEntry expiryTime e && e.name == p.1))) := by
  induction todo with
  | nil =>
    intro st _
    simp
  | cons e todo ih =>
    intro st hmeta
    have hmeta' : ∀ x ∈ todo, metaIdMatches x = true :=
      fun x hx => hmeta x (List.mem_cons_of_mem e hx)
    simp only [List.foldl_cons]
    obtain ⟨ename, eIsDir, emeta⟩ := e
    cases eIsDir with
    | false =>
      have hstep : cleanupStep expiryTime st ⟨ename, false, emeta⟩ = st := rfl
      have hexp : expiredEntry expiryTime ⟨ename, false, emeta⟩ = false := rfl
      rw [hstep]
      rcases ih st hmeta' with ⟨h1, h2⟩
      rw [h1, h2]
      constructor <;> simp [List.any_cons, hexp]
    | true =>
      cases emeta with
      | absent =>
        rcases ih st hmeta' with ⟨h1, h2⟩
        refine ⟨?_, ?_⟩ <;> [rw [show (cleanupStep expiryTime st
          ⟨ename, true, .absent⟩) = st from rfl, h1];
          rw [show (cleanupStep expiryTime st
          ⟨ename, true, .absent⟩) = st from rfl, h2]] <;>
          simp [List.any_cons, show expiredEntry expiryTime
            ⟨ename, true, .absent⟩ = false from rfl]
      | corrupt =>
        rcases ih st hmeta' with ⟨h1, h2⟩
        refine ⟨?_, ?_⟩ <;> [rw [show (cleanupStep expiryTime st
          ⟨ename, true, .corrupt⟩) = st from rfl, h1];
          rw [show (cleanupStep expiryTime st
          ⟨ename, true, .corrupt⟩) = st from rfl, h2]] <;>
          simp [List.any_cons, show expiredEntry expiryTime
            ⟨ename, true, .corrupt⟩ = false from rfl]
      | valid id created =>
        by_cases hlt : created < expiryTime
        · have hid : id = ename := by
            have hm := hmeta _ (List.mem_cons_self _ _)
            simpa [metaIdMatches] using hm
          subst hid
          have hstep : cleanupStep expiryTime st ⟨id, true, .valid id created⟩
              = (TaskManager.delete_task st id).2 := by
            simp [cleanupStep, hlt]
          have hexp : expiredEntry expiryTime ⟨id, true, .valid id created⟩
              = true := by
            simp [expiredEntry, hlt]
          rw [hstep]
          rcases ih (TaskManager.delete_task st id).2 hmeta' with ⟨h1, h2⟩
          rw [h1, h2]
          simp only [TaskManager.delete_task, List.filter_filter]
          constructor
          · apply List.filter_congr
            intro x _
            by_cases hxy : x.name = id
            · have hb : (id == x.name) = true := by
                rw [beq_iff_eq]; exact hxy.symm
              simp [List.any_cons, hexp, hxy, hb]
            · have hb : (id == x.name) = false := by
                rw [beq_eq_false_iff_ne]; exact fun h => hxy h.symm
              simp [List.any_cons, hexp, hxy, hb]
          · apply List.filter_congr
            intro x _
            by_cases hxy : x.1 = id
            · have hb : (id == x.1) = true := by
                rw [beq_iff_eq]; exact hxy.symm
              simp [List.any_cons, hexp, hxy, hb]
            · have hb : (id == x.1) = false := by
                rw [beq_eq_false_iff_ne]; exact fun h => hxy h.symm
              simp [List.any_cons, hexp, hxy, hb]
        · have hstep : cleanupStep expiryTime st ⟨ename, true, .valid id created⟩
              = st := by
            simp [cleanupStep, hlt]
          have hexp : expiredEntry expiryTime ⟨ename, true, .valid id created⟩
              = false := by
            simp [expiredEntry, hlt]
          rw [hstep]
          rcases ih st hmeta' with ⟨h1, h2⟩
          rw [h1, h2]
          constructor <;> simp [List.any_cons, hexp]

/-- C9: when every readable metadata file names its own directory and
directory names are unique (as `_save_task_info` guarantees),
`cleanup_expired_tasks` deletes exactly the directories whose
persisted `created_at` precedes the expiry time and retains every
younger one; a directory whose metadata is missing or corrupt is
skipped without stopping the sweep, and the in-memory cache loses
exactly the records whose id belongs to a deleted directory. -/
theorem C9_cleanup_exact :
    ∀ (expiryTime : Nat) (st : TMState),
      (∀ e ∈ st.entries, metaIdMatches e = true) →
      (st.entries.map DirEntry.name).Nodup →
      (TaskManager.cleanup_expired_tasks expiryTime st).entries
        = st.entries.filter (fun e => !expiredEntry expiryTime e)
      ∧ (TaskManager.cleanup_expired_tasks expiryTime st).tasks
        = st.tasks.filter
            (fun p => !(st.entries.any
                (fun e => expiredEntry expiryTime e && e.name == p.1))) := by
  intro expiryTime st hmeta hnodup
  unfold TaskManager.cleanup_expired_tasks
  rcases cleanup_fold expiryTime st.entries st hmeta with ⟨h1, h2⟩
  refine ⟨?_, h2⟩
  rw [h1]
  apply List.filter_congr
  intro x hx
  by_cases hex : expiredEntry expiryTime x = true
  · have hany : st.entries.any
        (fun e => expiredEntry expiryTime e && e.name == x.name) = true :=
      List.any_eq_true.2 ⟨x, hx, by simp [hex]⟩
    rw [hany, hex]
  · have hex' : expiredEntry expiryTime x = false := by
      simpa using hex
    have hany : st.entries.any
        (fun e => expiredEntry expiryTime e && e.name == x.name) = false := by
      rw [List.any_eq_false]
      intro e he hpe
      rw [Bool.and_eq_true] at hpe
      rcases hpe with ⟨hee, hbe⟩
      have : e = x :=
        List.inj_on_of_nodup_map hnodup he hx (beq_iff_eq.1 hbe)
      rw [this] at hee
      rw [hee] at hex'
      cases hex'
    rw [hany, hex']

/-- C9 (witness): with a 24-hour threshold at hour 100, the sweep
deletes exactly the task created 25 hours ago (directory and cached
record), retains the task created 1 hour ago, and leaves the
corrupt-metadata and metadata-less directories alone even though the
corrupt one precedes the expired one in the scan order. -/
theorem C9_cleanup_witness :
    (TaskManager.cleanup_expired_tasks c9Expiry c9State).entries.map DirEntry.name
      = ["bad", "noinfo", "new"]
  ∧ (TaskManager.cleanup_expired_tasks c9Expiry c9State).tasks.map Prod.fst
      = ["new"] := by
  have h := C9_cleanup_exact c9Expiry c9State (by decide) (by decide)
  constructor
  · rw [h.1]; decide
  · rw [h.2]; decide

end PkgDl
